import Mathlib

/-!
Shallow embedding of the delta-track transaction import pipeline:
`portfolio_tracker/importing/parsers/schwab_transactions_parser.py`,
`portfolio_tracker/importing/services/transaction_import_service.py`
and the enums of `portfolio_tracker/models.py`.

Python `Decimal` values are modelled as `ℚ` (exact arithmetic; Python
`Decimal` equality on the values occurring here is numeric equality).
Fallible operations (`Decimal(...)`, `strptime`) return `Option`/`Except`.
Character classes (`\s`, `\d`, upper-casing) are modelled over their ASCII
meaning, which covers every string handled by this code base.
-/

namespace DeltaTrack

/-- `models.AssetTypeEnum`. -/
inductive AssetTypeEnum where
  | STOCK | OPTION | ETF | MUTUAL_FUND | CASH
deriving DecidableEq, Repr

/-- `models.ActionTypeEnum`. -/
inductive ActionTypeEnum where
  | BUY | SELL | BUY_TO_OPEN | SELL_TO_OPEN | BUY_TO_CLOSE | SELL_TO_CLOSE
  | DIVIDEND | FEE | INTEREST | EXERCISE | ASSIGNMENT | EXPIRATION
deriving DecidableEq, Repr

/-- A calendar date as produced by `datetime.strptime(...).date()`. -/
structure Date where
  year : Nat
  month : Nat
  day : Nat
deriving DecidableEq, Repr

/-! ## Python string primitives -/

/-- The characters Python treats as whitespace for `str.strip` and `\s`
(ASCII part): space, tab, LF, CR, VT, FF. -/
def pySpaceChar (c : Char) : Bool :=
  c = ' ' ∨ c = '\t' ∨ c = '\n' ∨ c = '\r' ∨ c = Char.ofNat 11 ∨ c = Char.ofNat 12

/-- `str.strip()` (no argument): remove leading and trailing whitespace. -/
def pyStrip (s : String) : String :=
  ⟨((s.data.dropWhile pySpaceChar).reverse.dropWhile pySpaceChar).reverse⟩

/-- ASCII lower-casing of one character, as `str.lower()` does on ASCII. -/
def lowerChar (c : Char) : Char :=
  if 'A' ≤ c ∧ c ≤ 'Z' then Char.ofNat (c.toNat + 32) else c

/-- ASCII upper-casing of one character, as `str.upper()` does on ASCII. -/
def upperChar (c : Char) : Char :=
  if 'a' ≤ c ∧ c ≤ 'z' then Char.ofNat (c.toNat - 32) else c

/-- `str.lower()`. -/
def pyLower (s : String) : String := ⟨s.data.map lowerChar⟩

/-- `str.upper()`. -/
def pyUpper (s : String) : String := ⟨s.data.map upperChar⟩

/-- `str.replace(old, "")` for a single-character pattern `old`:
delete every occurrence of that character. -/
def pyRemoveChar (old : Char) : List Char → List Char
  | [] => []
  | c :: cs => if c = old then pyRemoveChar old cs else c :: pyRemoveChar old cs

/-! ## Python `Decimal(str)` construction (`decimal.Decimal`)

Grammar modelled (ASCII, no `NaN`/`Infinity`, which never arise here):
`[sign] (digits [. digits?] | . digits) [(e|E) [sign] digits]`. -/

def digitVal (c : Char) : Nat := c.toNat - 48

def digitsToNat (l : List Char) : Nat := l.foldl (fun a c => a * 10 + digitVal c) 0

/-- Optional exponent suffix of a decimal literal: `some e` for an empty
suffix (`e = 0`) or a well-formed `(e|E)[sign]digits` suffix; `none` means
the whole literal is rejected (`InvalidOperation`). -/
def decExpVal (l : List Char) : Option Int :=
  match l with
  | [] => some 0
  | c :: r =>
    if c = 'e' ∨ c = 'E' then
      let sr : Bool × List Char :=
        match r with
        | '-' :: rr => (true, rr)
        | '+' :: rr => (false, rr)
        | _ => (false, r)
      let ds := sr.2.takeWhile Char.isDigit
      let r2 := sr.2.dropWhile Char.isDigit
      if ds.isEmpty ∨ ¬ r2.isEmpty then none
      else some (if sr.1 then -(digitsToNat ds : Int) else (digitsToNat ds : Int))
    else none

/-- The exact value `coefficient * 10 ^ (exp - fracLen)` of a decimal
literal with integer-and-fraction digit value `m`, `fracLen` fractional
digits, sign `sgn` and exponent `e`. -/
def decVal (sgn : Int) (m : Nat) (fracLen : Nat) (e : Int) : ℚ :=
  let p : Int := e - fracLen
  if 0 ≤ p then mkRat (sgn * m * ((10 ^ p.toNat : Nat) : Int)) 1
  else mkRat (sgn * m) (10 ^ (-p).toNat)

/-- `Decimal(text)`: `some` value on success, `none` when the constructor
would raise `InvalidOperation`. -/
def decParse (l : List Char) : Option ℚ :=
  let sl : Int × List Char :=
    match l with
    | '-' :: r => (-1, r)
    | '+' :: r => (1, r)
    | _ => (1, l)
  let ds1 := sl.2.takeWhile Char.isDigit
  let r1 := sl.2.dropWhile Char.isDigit
  let core : Option (Nat × Nat × List Char) :=
    match r1 with
    | '.' :: r2 =>
      let ds2 := r2.takeWhile Char.isDigit
      let r3 := r2.dropWhile Char.isDigit
      if ds1.isEmpty ∧ ds2.isEmpty then none
      else some (digitsToNat (ds1 ++ ds2), ds2.length, r3)
    | _ =>
      if ds1.isEmpty then none
      else some (digitsToNat ds1, 0, r1)
  match core with
  | none => none
  | some (m, fl, rest) =>
    match decExpVal rest with
    | none => none
    | some e => some (decVal sl.1 m fl e)

instance instDecEqExcept {ε α : Type} [DecidableEq ε] [DecidableEq α] :
    DecidableEq (Except ε α) := fun a b =>
  match a, b with
  | .ok x, .ok y => decidable_of_iff (x = y) (by simp)
  | .ok _, .error _ => isFalse (by simp)
  | .error _, .ok _ => isFalse (by simp)
  | .error x, .error y => decidable_of_iff (x = y) (by simp)

/-! ## `parse_schwab_decimal` (schwab_transactions_parser.py lines 12-22) -/

/-- Line 15: `value_str.replace("$", "").replace(",", "")`. -/
def stripCurrency (value_str : String) : List Char :=
  pyRemoveChar ',' (pyRemoveChar '$' value_str.data)

/-- `parse_schwab_decimal(value_str)`.  `.error ()` models an uncaught
`InvalidOperation` escaping the function (only possible on the
parenthesized path, which sits outside the `try`). -/
def parse_schwab_decimal (value_str : String) : Except Unit ℚ :=
  if value_str = "" then .ok 0
  else
    let l := stripCurrency value_str
    if l.head? = some '(' ∧ l.getLast? = some ')' then
      match decParse ('-' :: (l.drop 1).dropLast) with
      | some v => .ok v
      | none => .error ()
    else
      match decParse l with
      | some v => .ok v
      | none => .ok 0

/-- The NUL character. -/
def nulChar : Char := Char.ofNat 0

/-- Parser line 46, the pre-`DictReader` sanitation of the file content:
`csv_content_string.replace('\x00', '').replace('\x00', '')`.  Both
patterns are the NUL character — the first written as the escape
`\x00`, the second as a raw 0x00 byte embedded in the source literal. -/
def sanitizeContent (s : String) : String :=
  ⟨pyRemoveChar nulChar (pyRemoveChar nulChar s.data)⟩

/-! ## `datetime.strptime(s, "%m/%d/%Y")` / `"%m/%d/%y"` (plus `.date()`)

CPython's `_strptime` matches `%m` with `1[0-2]|0[1-9]|[1-9]`, `%d` with
`3[01]|[12]\d|0[1-9]|[1-9]`, `%Y` with exactly four digits and `%y` with
exactly two digits (`00..68 → 2000..2068`, `69..99 → 1969..1999`), requires
the whole string to match, and then `datetime(...)` validates the day
against the month length. -/

def isLeapYear (y : Nat) : Bool := y % 4 = 0 ∧ (y % 100 ≠ 0 ∨ y % 400 = 0)

def daysInMonth (y m : Nat) : Nat :=
  if m = 2 then (if isLeapYear y then 29 else 28)
  else if m = 4 ∨ m = 6 ∨ m = 9 ∨ m = 11 then 30
  else 31

/-- `datetime(year, month, day)` validity (fields already range-checked by
the `strptime` patterns except the day-of-month bound and the year range). -/
def mkDate (y m d : Nat) : Option Date :=
  if 1 ≤ y ∧ y ≤ 9999 ∧ 1 ≤ m ∧ m ≤ 12 ∧ 1 ≤ d ∧ d ≤ daysInMonth y m then
    some ⟨y, m, d⟩
  else none

/-- One `%m`-style numeric field: one or two digits, value in `1..hi`
(two-digit `00` is excluded by the pattern; a two-digit read is never
undone because the following literal `/` cannot be a digit). Returns the
value and the rest of the input. -/
def parseNumField (hi : Nat) : List Char → Option (Nat × List Char)
  | a :: b :: rest =>
    if a.isDigit ∧ b.isDigit then
      let v := digitVal a * 10 + digitVal b
      if 1 ≤ v ∧ v ≤ hi then some (v, rest) else none
    else if a.isDigit ∧ 1 ≤ digitVal a then some (digitVal a, b :: rest)
    else none
  | [a] => if a.isDigit ∧ 1 ≤ digitVal a then some (digitVal a, []) else none
  | [] => none

/-- `datetime.strptime(s, "%m/%d/%Y").date()`: `none` models `ValueError`. -/
def strptimeMDYl (l : List Char) : Option Date :=
  match parseNumField 12 l with
  | some (m, '/' :: r1) =>
    match parseNumField 31 r1 with
    | some (d, '/' :: r2) =>
      match r2 with
      | [y1, y2, y3, y4] =>
        if y1.isDigit ∧ y2.isDigit ∧ y3.isDigit ∧ y4.isDigit then
          mkDate (digitsToNat [y1, y2, y3, y4]) m d
        else none
      | _ => none
    | _ => none
  | _ => none

/-- `datetime.strptime(s, "%m/%d/%y").date()`: `none` models `ValueError`. -/
def strptimeMDyl (l : List Char) : Option Date :=
  match parseNumField 12 l with
  | some (m, '/' :: r1) =>
    match parseNumField 31 r1 with
    | some (d, '/' :: r2) =>
      match r2 with
      | [y1, y2] =>
        if y1.isDigit ∧ y2.isDigit then
          let v := digitsToNat [y1, y2]
          mkDate (if v ≤ 68 then 2000 + v else 1900 + v) m d
        else none
      | _ => none
    | _ => none
  | _ => none

/-- Expiry parsing (parser lines 102-105 and 121-124): try `%m/%d/%Y`,
on `ValueError` fall back to `%m/%d/%y`; a second failure propagates. -/
def parseExpiry (l : List Char) : Option Date :=
  match strptimeMDYl l with
  | some d => some d
  | none => strptimeMDyl l

/-! ## `ACTION_MAP` and the skip set (parser lines 27-40 and 59) -/

/-- `ACTION_MAP.get(raw_action)`: exact, case-sensitive dictionary lookup. -/
def ACTION_MAP (s : String) : Option ActionTypeEnum :=
  if s = "Buy" then some .BUY
  else if s = "Sell" then some .SELL
  else if s = "Sell to Open" then some .SELL_TO_OPEN
  else if s = "Buy to Open" then some .BUY_TO_OPEN
  else if s = "Sell to Close" then some .SELL_TO_CLOSE
  else if s = "Buy to Close" then some .BUY_TO_CLOSE
  else if s = "Qualified Dividend" then some .DIVIDEND
  else if s = "Cash Dividend" then some .DIVIDEND
  else if s = "Interest Income" then some .INTEREST
  else none

/-- The literal list tested against `raw_action.lower()` in line 59. -/
def skipLabels : List String :=
  ["moneylink transfer", "journal", "service fee", "funds received",
   "funds paid", "dividend paid", "adjustment", "bank interest",
   "atm withdrawal", "bill pay", "check paid",
   "client requested electronic funding receipt (pull)",
   "client requested electronic funding disbursement (push)",
   "dividend reinvestment", "funds transfer", "tax payment",
   "wire transfer incoming", "wire transfer outgoing"]

/-! ## `OPTION_SYMBOL_REGEX` (parser line 25)

`([A-Z]+)\s+(\d{1,2}/\d{1,2}/\d{2,4})\s+([\d\.]+)\s+([CP])`, used with
`.match` (anchored at the start, trailing input ignored).  Adjacent
character classes are disjoint, so each greedy piece consumes its maximal
run; `\d{1,2}` and `\d{2,4}` only succeed when the maximal digit run fits
the bound, because every shorter backtracking candidate is followed by a
digit where the pattern needs `/` or whitespace. -/

def isUpperAZ (c : Char) : Bool := 'A' ≤ c ∧ c ≤ 'Z'

/-- Whether the input starts with a whitespace character. -/
def headIsSpace : List Char → Bool
  | c :: _ => pySpaceChar c
  | [] => false

/-- The `(\d{1,2}/\d{1,2}/\d{2,4})` group when followed by `\s+`:
returns the captured characters and the rest (starting at the
whitespace after the year). -/
def symDatePart (l : List Char) : Option (List Char × List Char) :=
  let m := l.takeWhile Char.isDigit
  let r1 := l.dropWhile Char.isDigit
  if 1 ≤ m.length ∧ m.length ≤ 2 then
    match r1 with
    | '/' :: r2 =>
      let d := r2.takeWhile Char.isDigit
      let r3 := r2.dropWhile Char.isDigit
      if 1 ≤ d.length ∧ d.length ≤ 2 then
        match r3 with
        | '/' :: r4 =>
          let y := r4.takeWhile Char.isDigit
          let r5 := r4.dropWhile Char.isDigit
          if 2 ≤ y.length ∧ y.length ≤ 4 ∧ headIsSpace r5 = true then
            some (m ++ '/' :: d ++ '/' :: y, r5)
          else none
        | _ => none
      else none
    | _ => none
  else none

/-- `OPTION_SYMBOL_REGEX.match(s)`: the four captured groups
(ticker, date text, strike text, `C`/`P`), or `none`. -/
def symMatch (l : List Char) : Option (List Char × List Char × List Char × Char) :=
  let t := l.takeWhile isUpperAZ
  let r1 := l.dropWhile isUpperAZ
  if t.isEmpty then none else
  let w1 := r1.takeWhile pySpaceChar
  let r2 := r1.dropWhile pySpaceChar
  if w1.isEmpty then none else
  match symDatePart r2 with
  | none => none
  | some (ds, r3) =>
    let r4 := r3.dropWhile pySpaceChar
    let ks := r4.takeWhile (fun c => c.isDigit ∨ c = '.')
    let r5 := r4.dropWhile (fun c => c.isDigit ∨ c = '.')
    if ks.isEmpty then none else
    let w3 := r5.takeWhile pySpaceChar
    let r6 := r5.dropWhile pySpaceChar
    if w3.isEmpty then none else
    match r6 with
    | c :: _ => if c = 'C' ∨ c = 'P' then some (t, ds, ks, c) else none
    | [] => none

/-! ## `OPTION_DESC_REGEX` (parser line 24)

`(CALL|PUT)\s+([A-Z\s.]+?)\s+\$(\d+\.\d{2,})\s+EXP\s+(\d{1,2}/\d{1,2}/\d{2,4})`,
used with `.search`.  The lazy name group `[A-Z\s.]+?` overlaps `\s`, so the
matcher below keeps the regex's backtracking order: the `\s+` after the
right is tried greedily (longest first), and the name is grown one
character at a time (shortest first) until the tail pattern matches. -/

def inNameClass (c : Char) : Bool := isUpperAZ c ∨ pySpaceChar c ∨ c = '.'

/-- The final `(\d{1,2}/\d{1,2}/\d{2,4})` group at the end of the pattern:
nothing follows it, so the year takes at most four digits of the run. -/
def descDatePart (l : List Char) : Option (List Char) :=
  let m := l.takeWhile Char.isDigit
  let r1 := l.dropWhile Char.isDigit
  if 1 ≤ m.length ∧ m.length ≤ 2 then
    match r1 with
    | '/' :: r2 =>
      let d := r2.takeWhile Char.isDigit
      let r3 := r2.dropWhile Char.isDigit
      if 1 ≤ d.length ∧ d.length ≤ 2 then
        match r3 with
        | '/' :: r4 =>
          let y := r4.takeWhile Char.isDigit
          if 2 ≤ y.length then some (m ++ '/' :: d ++ '/' :: y.take 4)
          else none
        | _ => none
      else none
    | _ => none
  else none

/-- The tail `\s+\$(\d+\.\d{2,})\s+EXP\s+(date)` of `OPTION_DESC_REGEX`,
tried after a candidate name group: returns (strike text, date text). -/
def descTail (l : List Char) : Option (List Char × List Char) :=
  let w := l.takeWhile pySpaceChar
  let r1 := l.dropWhile pySpaceChar
  if w.isEmpty then none else
  match r1 with
  | '$' :: r2 =>
    let d1 := r2.takeWhile Char.isDigit
    let r3 := r2.dropWhile Char.isDigit
    if d1.isEmpty then none else
    match r3 with
    | '.' :: r4 =>
      let d2 := r4.takeWhile Char.isDigit
      let r5 := r4.dropWhile Char.isDigit
      if d2.length < 2 then none else
      let w2 := r5.takeWhile pySpaceChar
      let r6 := r5.dropWhile pySpaceChar
      if w2.isEmpty then none else
      match r6 with
      | 'E' :: 'X' :: 'P' :: r7 =>
        let w3 := r7.takeWhile pySpaceChar
        let r8 := r7.dropWhile pySpaceChar
        if w3.isEmpty then none else
        match descDatePart r8 with
        | some ds => some (d1 ++ '.' :: d2, ds)
        | none => none
      | _ => none
    | _ => none
  | _ => none

/-- Lazy expansion of the name group: try the tail after the current name
first, then grow the name by one class character. Returns (name, strike
text, date text). -/
def nameLoop (name : List Char) : List Char → Option (List Char × List Char × List Char)
  | [] =>
    match descTail [] with
    | some (ks, ds) => some (name, ks, ds)
    | none => none
  | c :: cs =>
    match descTail (c :: cs) with
    | some (ks, ds) => some (name, ks, ds)
    | none => if inNameClass c then nameLoop (name ++ [c]) cs else none

/-- Greedy backtracking over the `\s+` run after `CALL`/`PUT`: consume
`i` whitespace characters (longest first, at least one), then start the
lazy name group. `r` is the input just after the right keyword. -/
def spaceBack (r : List Char) : Nat → Option (List Char × List Char × List Char)
  | 0 => none
  | i + 1 =>
    match r.drop (i + 1) with
    | c :: cs =>
      if inNameClass c then
        match nameLoop [c] cs with
        | some x => some x
        | none => spaceBack r i
      else spaceBack r i
    | [] => spaceBack r i

/-- One anchored attempt of `OPTION_DESC_REGEX` at the current position:
the four captured groups (right, name, strike text, date text). -/
def descTryAt (l : List Char) : Option (String × List Char × List Char × List Char) :=
  if l.take 4 = "CALL".data then
    match spaceBack (l.drop 4) ((l.drop 4).takeWhile pySpaceChar).length with
    | some (n, ks, ds) => some ("CALL", n, ks, ds)
    | none => none
  else if l.take 3 = "PUT".data then
    match spaceBack (l.drop 3) ((l.drop 3).takeWhile pySpaceChar).length with
    | some (n, ks, ds) => some ("PUT", n, ks, ds)
    | none => none
  else none

/-- `OPTION_DESC_REGEX.search(s)`: first position (left to right) where
the anchored attempt succeeds. -/
def descSearch : List Char → Option (String × List Char × List Char × List Char)
  | [] => none
  | l@(_ :: t) =>
    match descTryAt l with
    | some r => some r
    | none => descSearch t

/-! ## `parse_schwab_transactions` row loop (parser lines 50-157)

The CSV layer (`csv.DictReader`) is not modelled; a `Row` is the dict of
one data row, each `row.get(col, "")` giving the raw cell text. -/

/-- One CSV row as seen by the loop body (missing columns are `""`). -/
structure Row where
  date : String := ""
  action : String := ""
  symbol : String := ""
  description : String := ""
  quantity : String := ""
  price : String := ""
  fees : String := ""
  amount : String := ""
deriving DecidableEq, Repr

/-- One dict appended to `parsed_transactions` (parser lines 139-153). -/
structure ParsedTx where
  transaction_date : Date
  action : ActionTypeEnum
  asset_type : AssetTypeEnum
  ticker : String
  quantity : ℚ
  price : ℚ
  fees : ℚ
  total_amount : ℚ
  option_type : Option String
  option_strike : Option ℚ
  option_expiry : Option Date
  raw_description : String
  raw_symbol : String
deriving DecidableEq, Repr

/-- The actions of the option branch test in parser line 88. -/
def openCloseActions : List ActionTypeEnum :=
  [.SELL_TO_OPEN, .BUY_TO_OPEN, .SELL_TO_CLOSE, .BUY_TO_CLOSE]

/-- Outcome of the option-details block (parser lines 90-129): parsed
details, the warn-and-skip of line 127-129, or an exception escaping to
the row-level `except` (bad strike/expiry text in a matched group). -/
inductive OptOutcome where
  | ok (ticker : String) (option_type : String) (option_strike : ℚ)
       (option_expiry : Date)
  | warn
  | exc
deriving DecidableEq, Repr

/-- Parser lines 90-129: structured symbol first, free-text description
as fallback. `symbol_str` and `description_str` are already stripped. -/
def resolveOption (symbol_str description_str : String) : OptOutcome :=
  match (if symbol_str ≠ "" then symMatch symbol_str.data else none) with
  | some (t, ds, ks, cp) =>
    let option_type_str := if cp = 'C' then "CALL" else "PUT"
    match decParse ks with
    | none => .exc
    | some strike =>
      match parseExpiry ds with
      | none => .exc
      | some e => .ok ⟨t⟩ option_type_str strike e
  | none =>
    if description_str ≠ "" then
      match descSearch (pyUpper description_str).data with
      | some (oty, name, ks, ds) =>
        let extracted := pyStrip ⟨name⟩
        let tk :=
          if symbol_str ≠ "" ∧ symMatch symbol_str.data = none
              ∧ ¬ symbol_str.data.contains ' ' then symbol_str
          else ⟨extracted.data.takeWhile (fun c => c ≠ ' ')⟩
        match decParse ks with
        | none => .exc
        | some strike =>
          match parseExpiry ds with
          | none => .exc
          | some e => .ok tk oty strike e
      | none => .warn
    else .warn

/-- `description_str.replace("Dividend", "")`: delete each occurrence,
scanning left to right. -/
def removeDividend : List Char → List Char
  | 'D' :: 'i' :: 'v' :: 'i' :: 'd' :: 'e' :: 'n' :: 'd' :: rest => removeDividend rest
  | c :: cs => c :: removeDividend cs
  | [] => []

/-- `"dividend" in s` (substring containment). -/
def containsDividendLower : List Char → Bool
  | [] => false
  | l@(_ :: t) =>
    if "dividend".data.isPrefixOf l then true else containsDividendLower t

/-- Parser lines 133-135: the dividend/interest ticker choice, including
the (unreachable) `"Dividend"`-stripping accommodation. -/
def dividendTicker (symbol_str description_str : String) : String :=
  let t := if symbol_str ≠ "" then symbol_str else description_str
  if t = "" ∧ containsDividendLower (pyLower description_str).data = true then
    pyStrip ⟨removeDividend description_str.data⟩
  else t

/-- Parser lines 137-153: the final dict, with `fees.copy_abs()` and the
`x.copy_abs() if x else Decimal(0)` magnitude treatment and the final
`ticker_str.strip()`. -/
def mkParsedTx (transaction_date : Date) (action : ActionTypeEnum)
    (asset_type : AssetTypeEnum) (ticker : String)
    (quantity price fees amount : ℚ) (option_type : Option String)
    (option_strike : Option ℚ) (option_expiry : Option Date)
    (description_str symbol_str : String) : ParsedTx where
  transaction_date := transaction_date
  action := action
  asset_type := asset_type
  ticker := pyStrip ticker
  quantity := if quantity ≠ 0 then |quantity| else 0
  price := if price ≠ 0 then |price| else 0
  fees := |fees|
  total_amount := amount
  option_type := option_type
  option_strike := option_strike
  option_expiry := option_expiry
  raw_description := description_str
  raw_symbol := symbol_str

/-- Parser lines 72-80: the four decimal cells, parsed in source order;
a raised `InvalidOperation` aborts the row (outer `except`). -/
def rowDecimals (row : Row) : Except Unit (ℚ × ℚ × ℚ × ℚ) :=
  match (if row.quantity ≠ "" then parse_schwab_decimal row.quantity else .ok 0) with
  | .error e => .error e
  | .ok quantity =>
    match (if row.price ≠ "" then parse_schwab_decimal row.price else .ok 0) with
    | .error e => .error e
    | .ok price =>
      match (if row.fees ≠ "" then parse_schwab_decimal row.fees else .ok 0) with
      | .error e => .error e
      | .ok fees =>
        match (if row.amount ≠ "" then parse_schwab_decimal row.amount else .ok 0) with
        | .error e => .error e
        | .ok amount => .ok (quantity, price, fees, amount)

/-- What one loop iteration contributes: a parsed dict, a silent skip
(`continue`), the unmapped-action warning of line 60, the option-details
warning of line 128, or the caught row exception of lines 155-157. -/
inductive ProcessOutcome where
  | record (t : ParsedTx)
  | skip
  | warnUnmapped
  | warnOption
  | errorRow
deriving DecidableEq, Repr

/-- The loop body of `parse_schwab_transactions` for one row. -/
def processRow (row : Row) : ProcessOutcome :=
  let raw_action := pyStrip row.action
  if raw_action = "" then .skip
  else
    match ACTION_MAP raw_action with
    | none => if pyLower raw_action ∈ skipLabels then .skip else .warnUnmapped
    | some action_enum =>
      let transaction_date_str := pyStrip row.date
      if transaction_date_str = "" then .skip
      else
        match strptimeMDYl transaction_date_str.data with
        | none => .errorRow
        | some transaction_date =>
          let symbol_str := pyStrip row.symbol
          let description_str := pyStrip row.description
          match rowDecimals row with
          | .error _ => .errorRow
          | .ok (quantity, price, fees, amount) =>
            if action_enum ∈ openCloseActions then
              match resolveOption symbol_str description_str with
              | .exc => .errorRow
              | .warn => .warnOption
              | .ok tk oty ostrike oexpiry =>
                .record (mkParsedTx transaction_date action_enum .OPTION tk
                  quantity price fees amount (some oty) (some ostrike)
                  (some oexpiry) description_str symbol_str)
            else if action_enum = .DIVIDEND ∨ action_enum = .INTEREST then
              .record (mkParsedTx transaction_date action_enum .CASH
                (dividendTicker symbol_str description_str)
                quantity price fees amount none none none
                description_str symbol_str)
            else
              .record (mkParsedTx transaction_date action_enum .STOCK
                symbol_str quantity price fees amount none none none
                description_str symbol_str)

/-- `parse_schwab_transactions` output list over the data rows. -/
def parseTransactions (rows : List Row) : List ParsedTx :=
  rows.filterMap fun r =>
    match processRow r with
    | .record t => some t
    | _ => none

/-- Number of dicts a row's outcome appends to the output list. -/
def outRecords : ProcessOutcome → Nat
  | .record _ => 1
  | _ => 0

/-- Number of diagnostics a row's outcome prints (the row-level warning
channel: unmapped action, unparsed option details, caught row error). -/
def outWarnings : ProcessOutcome → Nat
  | .warnUnmapped => 1
  | .warnOption => 1
  | .errorRow => 1
  | _ => 0

/-! ## `TransactionImportService.import_transactions`
(transaction_import_service.py lines 16-100)

The SQLAlchemy session is modelled by the list of existing account ids
(the only query issued is the account lookup), and the final
`session.commit()` as succeeding — no claim here concerns commit
failure. `ValueError` / bad lookups are `Except.error`. -/

/-- One element of `parsed_transactions_data`: a dict. A `none` in the
four required fields models a missing key (`KeyError` on `tx_data[...]`);
a `none` in the decimal fields models a value that is absent or not a
`Decimal` (the `isinstance` checks). -/
structure TxData where
  transaction_date : Option Date := none
  ticker : Option String := none
  asset_type : Option AssetTypeEnum := none
  action : Option ActionTypeEnum := none
  quantity : Option ℚ := none
  price : Option ℚ := none
  fees : Option ℚ := none
  total_amount : Option ℚ := none
  raw_description : Option String := none
  option_type : Option String := none
  option_strike : Option ℚ := none
  option_expiry : Option Date := none
deriving DecidableEq, Repr

/-- The `Transaction` model row as populated by the service (lines 41-55). -/
structure Transaction where
  account_id : Nat
  transaction_date : Date
  ticker : String
  asset_type : AssetTypeEnum
  action : ActionTypeEnum
  quantity : ℚ
  price : ℚ
  fees : ℚ
  total_amount : ℚ
  notes : Option String
  option_type : Option String
  strike_price : Option ℚ
  expiry_date : Option Date
deriving DecidableEq, Repr

/-- Lines 41-55: the `Transaction(...)` construction, with the
`x if isinstance(x, Decimal) else Decimal(0)` defaults. Requires the four
bracket-indexed fields to be present. -/
def mkTransaction (account_id : Nat) (dt : Date) (tk : String)
    (at_ : AssetTypeEnum) (ac : ActionTypeEnum) (tx : TxData) : Transaction where
  account_id := account_id
  transaction_date := dt
  ticker := tk
  asset_type := at_
  action := ac
  quantity := tx.quantity.getD 0
  price := tx.price.getD 0
  fees := tx.fees.getD 0
  total_amount := tx.total_amount.getD 0
  notes := tx.raw_description
  option_type := tx.option_type
  strike_price := tx.option_strike
  expiry_date := tx.option_expiry

/-- The trade actions of the zero-quantity validation (line 58). -/
def tradeActions : List ActionTypeEnum :=
  [.BUY, .SELL, .BUY_TO_OPEN, .SELL_TO_OPEN, .BUY_TO_CLOSE, .SELL_TO_CLOSE]

/-- Python falsiness of `new_transaction.option_type` (`None` or `""`),
`strike_price` (`None` or zero) and `expiry_date` (`None`) in line 66. -/
def optionDetailsFalsy (t : Transaction) : Bool :=
  (t.option_type = none ∨ t.option_type = some "")
  ∨ (t.strike_price = none ∨ t.strike_price = some 0)
  ∨ t.expiry_date = none

/-- Lines 31-81, one `tx_data`: `some` transaction when it is added to
the session, `none` when the iteration skips it (missing required key or
failed validation), incrementing `skipped_count`. -/
def processRecord (account_id : Nat) (tx : TxData) : Option Transaction :=
  match tx.transaction_date, tx.ticker, tx.asset_type, tx.action with
  | some dt, some tk, some at_, some ac =>
    let t := mkTransaction account_id dt tk at_ ac tx
    if t.action ∈ tradeActions ∧ t.quantity = 0 ∧ t.asset_type ≠ .CASH then none
    else if t.asset_type = .OPTION ∧ optionDetailsFalsy t = true then none
    else some t
  | _, _, _, _ => none

/-- The loop of lines 31-81: the `created_transactions` list (in input
order) and the final `skipped_count`. -/
def processBatch (account_id : Nat) : List TxData → List Transaction × Nat
  | [] => ([], 0)
  | tx :: rest =>
    let r := processBatch account_id rest
    match processRecord account_id tx with
    | some t => (t :: r.1, r.2)
    | none => (r.1, r.2 + 1)

/-- `import_transactions(account_id, parsed_transactions_data)` against
the accounts existing in the session. Mirrors the early returns: falsy
`account_id` and unknown accounts raise `ValueError`; an empty input list
and an empty `created_transactions` both return `[]`; otherwise the
commit succeeds and the created list is returned. -/
def import_transactions (accounts : List Nat) (account_id : Nat)
    (data : List TxData) : Except String (List Transaction) :=
  if account_id = 0 then .error "Account ID must be provided."
  else if ¬ account_id ∈ accounts then .error "Account not found."
  else if data = [] then .ok []
  else
    let cs := processBatch account_id data
    if cs.1 = [] then .ok []
    else .ok cs.1

end DeltaTrack

namespace DeltaTrack

/-! # Sanity checks of the embedding against the repository's test file -/

example : symMatch "MSFT 12/18/2026 400.00 P".data
    = some ("MSFT".data, "12/18/2026".data, "400.00".data, 'P') := rfl
example : symMatch "NVDA".data = none := rfl
example : descSearch "PUT NVIDIA CORP $70.00 EXP 01/15/27".data
    = some ("PUT", "NVIDIA CORP".data, "70.00".data, "01/15/27".data) := rfl
example : strptimeMDYl "05/19/2025".data = some ⟨2025, 5, 19⟩ := rfl
example : strptimeMDYl "01/15/27".data = none := rfl
example : parseExpiry "01/15/27".data = some ⟨2027, 1, 15⟩ := rfl
example : strptimeMDYl "02/30/2025".data = none := rfl


/-- `Except` success test (models "no exception was raised"). -/
def exceptIsOk {ε α : Type} : Except ε α → Bool
  | .ok _ => true
  | .error _ => false

theorem pyRemoveChar_eq_filter (old : Char) (l : List Char) :
    pyRemoveChar old l = l.filter (fun c => c != old) := by
  induction l with
  | nil => rfl
  | cons c cs ih =>
    by_cases hc : c = old <;>
      simp [pyRemoveChar, List.filter_cons, hc, ih]

theorem pyRemoveChar_idem (old : Char) (l : List Char) :
    pyRemoveChar old (pyRemoveChar old l) = pyRemoveChar old l := by
  induction l with
  | nil => rfl
  | cons c cs ih =>
    by_cases hc : c = old <;> simp [pyRemoveChar, hc, ih]

/-! # Claim theorems -/

/-- C9: `normalizeDecimal("(1,234.56)") = -1234.56`,
`normalizeDecimal("$1,234.56") = 1234.56`, `normalizeDecimal("") = 0` and
`normalizeDecimal("garbage") = 0`: currency symbols and group separators
are stripped, and a parenthesized value denotes a negative magnitude
(`mkRat (-123456) 100 = -1234.56`, `mkRat 123456 100 = 1234.56`). -/
theorem C9_normalize_decimal_examples :
    parse_schwab_decimal "(1,234.56)" = .ok (mkRat (-123456) 100)
    ∧ parse_schwab_decimal "$1,234.56" = .ok (mkRat 123456 100)
    ∧ parse_schwab_decimal "" = .ok 0
    ∧ parse_schwab_decimal "garbage" = .ok 0 :=
  ⟨by decide, by decide, rfl, rfl⟩

/-- C5 counterexample: on `"(abc)"` — a parenthesized value whose interior
is malformed — `parse_schwab_decimal` raises `InvalidOperation`
(modelled `.error ()`) instead of returning `0`, because the parenthesized
branch `Decimal("-" + value_str[1:-1])` sits outside the `try`. -/
theorem C5_counterexample : parse_schwab_decimal "(abc)" = .error () := rfl

/-- C5 amended: for every input whose stripped form is NOT wrapped in
parentheses, `parse_schwab_decimal` never raises, and returns `0` whenever
structural decimal parsing fails; only a parenthesized value with a
malformed interior raises (and is then caught by the caller's per-row
handler, dropping the whole row rather than defaulting the cell to 0). -/
theorem C5_lenient_default (s : String)
    (h : ¬ ((stripCurrency s).head? = some '(' ∧ (stripCurrency s).getLast? = some ')')) :
    exceptIsOk (parse_schwab_decimal s) = true
    ∧ (decParse (stripCurrency s) = none → parse_schwab_decimal s = .ok 0) := by
  unfold parse_schwab_decimal
  by_cases he : s = ""
  · simp [he, exceptIsOk]
  · rw [if_neg he]
    rw [if_neg h]
    cases hd : decParse (stripCurrency s) <;> simp [exceptIsOk]

/-- Witness for C5: the non-parenthesized malformed cell `"garbage"`. -/
theorem C5_witness :
    exceptIsOk (parse_schwab_decimal "garbage") = true
    ∧ (decParse (stripCurrency "garbage") = none → parse_schwab_decimal "garbage" = .ok 0) :=
  C5_lenient_default "garbage" (by decide)

/-- C2 counterexample: the sanitation step applied to the file content
before parsing (`.replace('\x00','').replace('\x00','')`) leaves the
whitespace of `"1 234.56"` intact — it does not produce the
whitespace-free `"1234.56"` the claim requires. -/
theorem C2_counterexample :
    sanitizeContent "1 234.56" = "1 234.56"
    ∧ ("1 234.56" : String) ≠ "1234.56" :=
  ⟨rfl, by decide⟩

/-- C2 amended: the pre-parse sanitation step removes exactly the NUL
characters of the content and nothing else; all whitespace — inside
numeric fields and between words alike — survives it unchanged. -/
theorem C2_sanitize_removes_only_nul (s : String) :
    sanitizeContent s = ⟨s.data.filter (fun c => c != nulChar)⟩ := by
  unfold sanitizeContent
  rw [pyRemoveChar_eq_filter nulChar s.data, ← pyRemoveChar_eq_filter nulChar s.data,
    pyRemoveChar_idem, pyRemoveChar_eq_filter]

theorem processBatch_length (account_id : Nat) (data : List TxData) :
    (processBatch account_id data).1.length + (processBatch account_id data).2
      = data.length := by
  induction data with
  | nil => rfl
  | cons tx rest ih =>
    simp only [processBatch]
    cases processRecord account_id tx <;>
      simp only [List.length_cons] <;> omega

/-- C1 counterexample: `import_transactions` returns only the created
list; the rejection count is not part of the result. The empty batch and
a batch whose single record is rejected produce the *same* result while
their rejection counts differ, so no reading of the result recovers the
count of rejected records. -/
theorem C1_counterexample :
    import_transactions [1] 1 [({} : TxData)] = import_transactions [1] 1 []
    ∧ (processBatch 1 [({} : TxData)]).2 = 1
    ∧ (processBatch 1 ([] : List TxData)).2 = 0
    ∧ ¬ ∃ f : Except String (List Transaction) → Nat,
        ∀ data : List TxData,
          f (import_transactions [1] 1 data) = (processBatch 1 data).2 := by
  refine ⟨rfl, rfl, rfl, ?_⟩
  rintro ⟨f, hf⟩
  have h0 := hf []
  have h1 := hf [({} : TxData)]
  have he : import_transactions [1] 1 [({} : TxData)]
      = import_transactions [1] 1 [] := rfl
  rw [he, h0] at h1
  exact absurd h1 (by decide)

/-- C1 amended: for a resolvable, non-zero account id,
`import_transactions` returns exactly the list of persisted records; the
count of rejected records is tracked internally (every input record is
either persisted or counted as skipped) but is not part of the result. -/
theorem C1_returns_created_only (accounts : List Nat) (account_id : Nat)
    (data : List TxData) (h0 : account_id ≠ 0) (hm : account_id ∈ accounts) :
    import_transactions accounts account_id data
      = .ok (processBatch account_id data).1
    ∧ (processBatch account_id data).1.length + (processBatch account_id data).2
      = data.length := by
  refine ⟨?_, processBatch_length account_id data⟩
  unfold import_transactions
  rw [if_neg h0, if_neg (not_not_intro hm)]
  by_cases hd : data = []
  · subst hd; rfl
  · rw [if_neg hd]
    by_cases hc : (processBatch account_id data).1 = []
    · simp [hc]
    · simp [hc]

/-- Witness for C1: account 7 exists; a batch with one structurally
deficient record returns the empty created list and internally counts
one rejection. -/
theorem C1_witness :
    import_transactions [7] 7 [({} : TxData)]
      = .ok (processBatch 7 [({} : TxData)]).1
    ∧ (processBatch 7 [({} : TxData)]).1.length
        + (processBatch 7 [({} : TxData)]).2 = 1 :=
  C1_returns_created_only [7] 7 [({} : TxData)] (by decide) (by decide)

/-- C10 counterexample: a BUY record whose quantity entry is absent has
quantity defaulted to 0, and is then REJECTED by the zero-quantity trade
validation — it does not proceed into the persisted set as the claim
states. -/
theorem C10_counterexample :
    processRecord 1 { transaction_date := some ⟨2025, 5, 19⟩,
                      ticker := some "NVDA", asset_type := some .STOCK,
                      action := some .BUY } = none
    ∧ import_transactions [1] 1
        [{ transaction_date := some ⟨2025, 5, 19⟩, ticker := some "NVDA",
           asset_type := some .STOCK, action := some .BUY }] = .ok []
    ∧ (processBatch 1
        [{ transaction_date := some ⟨2025, 5, 19⟩, ticker := some "NVDA",
           asset_type := some .STOCK, action := some .BUY }]).2 = 1 :=
  ⟨rfl, rfl, rfl⟩

/-- C10 amended: absent or non-`Decimal` quantity/price/fees/total_amount
entries are silently defaulted to 0 at construction; the record then
still passes through validation, which can reject it (zero-quantity
trade, incomplete option details) — e.g. a DIVIDEND record with none of
these entries is accepted with all-zero amounts, while absence of
transaction_date, ticker, asset_type or action always rejects the record
(KeyError). -/
theorem C10_defaulting :
    (∀ (account_id : Nat) (dt : Date) (tk : String) (at_ : AssetTypeEnum)
        (ac : ActionTypeEnum) (tx : TxData),
      (mkTransaction account_id dt tk at_ ac tx).quantity = tx.quantity.getD 0
      ∧ (mkTransaction account_id dt tk at_ ac tx).price = tx.price.getD 0
      ∧ (mkTransaction account_id dt tk at_ ac tx).fees = tx.fees.getD 0
      ∧ (mkTransaction account_id dt tk at_ ac tx).total_amount
          = tx.total_amount.getD 0)
    ∧ (∀ (account_id : Nat) (dt : Date) (tk : String),
      ∃ t : Transaction,
        processRecord account_id
          { transaction_date := some dt, ticker := some tk,
            asset_type := some .CASH, action := some .DIVIDEND } = some t
        ∧ t.quantity = 0 ∧ t.price = 0 ∧ t.fees = 0 ∧ t.total_amount = 0)
    ∧ (∀ (account_id : Nat) (tx : TxData),
      tx.transaction_date = none ∨ tx.ticker = none
        ∨ tx.asset_type = none ∨ tx.action = none →
      processRecord account_id tx = none) := by
  refine ⟨fun _ _ _ _ _ _ => ⟨rfl, rfl, rfl, rfl⟩, ?_, ?_⟩
  · intro account_id dt tk
    exact ⟨_, rfl, rfl, rfl, rfl, rfl⟩
  · intro account_id tx h
    obtain ⟨d, k, a, c, q, p, f, ta, rd, ot, os, oe⟩ := tx
    rcases h with h | h | h | h <;> (dsimp only at h; subst h)
    · rfl
    · cases d <;> rfl
    · cases d <;> cases k <;> rfl
    · cases d <;> cases k <;> cases a <;> rfl

/-- Witness for C10: the empty dict is rejected; a bare DIVIDEND dict
is accepted with all-zero amounts. -/
theorem C10_witness :
    processRecord 3 ({} : TxData) = none
    ∧ ∃ t : Transaction,
        processRecord 3 { transaction_date := some ⟨2024, 1, 2⟩,
                          ticker := some "AAPL", asset_type := some .CASH,
                          action := some .DIVIDEND } = some t
        ∧ t.quantity = 0 ∧ t.price = 0 ∧ t.fees = 0 ∧ t.total_amount = 0 :=
  ⟨C10_defaulting.2.2 3 {} (Or.inl rfl),
   C10_defaulting.2.1 3 ⟨2024, 1, 2⟩ "AAPL"⟩

/-- C3: on the option row with symbol `"NVDA"` and description
`"PUT NVIDIA CORP $70 EXP 01/15/27"`, the fallback free-text resolver
fails (`OPTION_DESC_REGEX` demands a decimal point and at least two
fraction digits in the strike, which `$70` lacks), so the row is
rejected with the option-details warning and produces no record —
although the repository's own test
`test_parse_option_buy_to_close_description_format` expects it to resolve
to strike 70.00 and expiry 2027-01-15. -/
theorem C3_code_bug :
    descSearch (pyUpper "PUT NVIDIA CORP $70 EXP 01/15/27").data = none
    ∧ processRow { date := "05/14/2025", action := "Buy to Close",
                   symbol := "NVDA",
                   description := "PUT NVIDIA CORP $70 EXP 01/15/27",
                   quantity := "1", price := "$4.11", fees := "$0.66",
                   amount := "($411.66)" } = .warnOption
    ∧ parseTransactions [{ date := "05/14/2025", action := "Buy to Close",
                           symbol := "NVDA",
                           description := "PUT NVIDIA CORP $70 EXP 01/15/27",
                           quantity := "1", price := "$4.11", fees := "$0.66",
                           amount := "($411.66)" }] = [] :=
  ⟨rfl, rfl, rfl⟩


/-- C7: a structured contract symbol (`"MSFT 12/18/2026 400.00 P"`)
resolves from the symbol alone — for every description the produced
record carries ticker MSFT, right PUT, strike 400.00
(`mkRat 40000 100`), expiry 2026-12-18; and in general, whenever
`OPTION_SYMBOL_REGEX` matches the symbol, the option resolution is
independent of the description (the structured symbol is tried first
and wins). -/
theorem C7_symbol_authoritative :
    (∀ d ∈ (["PUT MICROSOFT CORP $400 EXP 12/18/26", ""] : List String),
      processRow { date := "05/15/2025", action := "Sell to Open",
                   symbol := "MSFT 12/18/2026 400.00 P", description := d,
                   quantity := "3", price := "$27.18", fees := "$1.98",
                   amount := "$8,152.02" }
        = .record { transaction_date := ⟨2025, 5, 15⟩,
                    action := .SELL_TO_OPEN, asset_type := .OPTION,
                    ticker := "MSFT", quantity := 3,
                    price := mkRat 2718 100, fees := mkRat 198 100,
                    total_amount := mkRat 815202 100,
                    option_type := some "PUT",
                    option_strike := some (mkRat 40000 100),
                    option_expiry := some ⟨2026, 12, 18⟩,
                    raw_description := pyStrip d,
                    raw_symbol := "MSFT 12/18/2026 400.00 P" })
    ∧ (∀ symbol d1 d2 : String, (symMatch symbol.data).isSome = true →
        resolveOption symbol d1 = resolveOption symbol d2) := by
  constructor
  · intro d hd
    fin_cases hd <;> rfl
  · intro symbol d1 d2 h
    obtain ⟨g, hg⟩ := Option.isSome_iff_exists.mp h
    have hne : symbol ≠ "" := by
      intro he; subst he
      rw [show symMatch ("" : String).data = none from rfl] at hg
      cases hg
    have key : (if symbol ≠ "" then symMatch symbol.data else none) = some g := by
      rw [if_pos hne]; exact hg
    simp only [resolveOption, key]

/-- Witness for C7: the symbol wins both with the repository test's
description and with an empty one. -/
theorem C7_witness :
    processRow { date := "05/15/2025", action := "Sell to Open",
                 symbol := "MSFT 12/18/2026 400.00 P",
                 description := "PUT MICROSOFT CORP $400 EXP 12/18/26",
                 quantity := "3", price := "$27.18", fees := "$1.98",
                 amount := "$8,152.02" }
      = .record { transaction_date := ⟨2025, 5, 15⟩,
                  action := .SELL_TO_OPEN, asset_type := .OPTION,
                  ticker := "MSFT", quantity := 3,
                  price := mkRat 2718 100, fees := mkRat 198 100,
                  total_amount := mkRat 815202 100,
                  option_type := some "PUT",
                  option_strike := some (mkRat 40000 100),
                  option_expiry := some ⟨2026, 12, 18⟩,
                  raw_description :=
                    pyStrip "PUT MICROSOFT CORP $400 EXP 12/18/26",
                  raw_symbol := "MSFT 12/18/2026 400.00 P" }
    ∧ resolveOption "MSFT 12/18/2026 400.00 P" ""
        = resolveOption "MSFT 12/18/2026 400.00 P" "ANY TEXT" :=
  ⟨C7_symbol_authoritative.1 "PUT MICROSOFT CORP $400 EXP 12/18/26" (by decide),
   C7_symbol_authoritative.2 "MSFT 12/18/2026 400.00 P" "" "ANY TEXT" rfl⟩


theorem magNonneg (q : ℚ) : 0 ≤ if q ≠ 0 then |q| else 0 := by
  split
  · exact abs_nonneg q
  · exact le_refl 0

theorem rowDecimals_amount (row : Row) (q p f am : ℚ)
    (h : rowDecimals row = .ok (q, p, f, am)) :
    parse_schwab_decimal row.amount = .ok am := by
  unfold rowDecimals at h
  cases h1 : (if row.quantity ≠ "" then parse_schwab_decimal row.quantity else Except.ok 0) with
  | error e => rw [h1] at h; simp at h
  | ok qv =>
    rw [h1] at h
    cases h2 : (if row.price ≠ "" then parse_schwab_decimal row.price else Except.ok 0) with
    | error e => rw [h2] at h; simp at h
    | ok pv =>
      rw [h2] at h
      cases h3 : (if row.fees ≠ "" then parse_schwab_decimal row.fees else Except.ok 0) with
      | error e => rw [h3] at h; simp at h
      | ok fv =>
        rw [h3] at h
        cases h4 : (if row.amount ≠ "" then parse_schwab_decimal row.amount else Except.ok 0) with
        | error e => rw [h4] at h; simp at h
        | ok av =>
          rw [h4] at h
          simp only [Except.ok.injEq, Prod.mk.injEq] at h
          obtain ⟨hq0, hp0, hf0, ha0⟩ := h
          subst ha0
          by_cases hA : row.amount = ""
          · rw [if_neg (not_not_intro hA)] at h4
            simp only [Except.ok.injEq] at h4
            rw [hA, ← h4]
            rfl
          · rw [if_pos hA] at h4
            exact h4

/-- Characterization of every accepted row: which branch of the loop
produced the record and from which intermediate values. -/
theorem processRow_record_cases (row : Row) (t : ParsedTx)
    (h : processRow row = .record t) :
    ∃ (a : ActionTypeEnum) (dt : Date) (q p f am : ℚ),
      ACTION_MAP (pyStrip row.action) = some a
      ∧ strptimeMDYl (pyStrip row.date).data = some dt
      ∧ rowDecimals row = .ok (q, p, f, am)
      ∧ ((∃ tk oty ostr oexp,
            a ∈ openCloseActions
            ∧ resolveOption (pyStrip row.symbol) (pyStrip row.description)
                = .ok tk oty ostr oexp
            ∧ t = mkParsedTx dt a .OPTION tk q p f am (some oty) (some ostr)
                (some oexp) (pyStrip row.description) (pyStrip row.symbol))
        ∨ (¬ a ∈ openCloseActions ∧ (a = .DIVIDEND ∨ a = .INTEREST)
            ∧ t = mkParsedTx dt a .CASH
                (dividendTicker (pyStrip row.symbol) (pyStrip row.description))
                q p f am none none none (pyStrip row.description)
                (pyStrip row.symbol))
        ∨ (¬ a ∈ openCloseActions ∧ ¬ (a = .DIVIDEND ∨ a = .INTEREST)
            ∧ t = mkParsedTx dt a .STOCK (pyStrip row.symbol) q p f am
                none none none (pyStrip row.description)
                (pyStrip row.symbol))) := by
  unfold processRow at h
  by_cases h0 : pyStrip row.action = ""
  · simp [h0] at h
  · cases hA : ACTION_MAP (pyStrip row.action) with
    | none =>
      by_cases hs : pyLower (pyStrip row.action) ∈ skipLabels <;>
        simp [h0, hA, hs] at h
    | some a =>
      by_cases h1 : pyStrip row.date = ""
      · simp [h0, hA, h1] at h
      · cases hD : strptimeMDYl (pyStrip row.date).data with
        | none => simp [h0, hA, h1, hD] at h
        | some dt =>
          cases hQ : rowDecimals row with
          | error e => simp [h0, hA, h1, hD, hQ] at h
          | ok quad =>
            obtain ⟨q, p, f, am⟩ := quad
            by_cases hOC : a ∈ openCloseActions
            · cases hR : resolveOption (pyStrip row.symbol) (pyStrip row.description) with
              | warn => simp [h0, hA, h1, hD, hQ, hOC, hR] at h
              | exc => simp [h0, hA, h1, hD, hQ, hOC, hR] at h
              | ok tk oty ostr oexp =>
                simp [h0, hA, h1, hD, hQ, hOC, hR] at h
                exact ⟨a, dt, q, p, f, am, rfl, rfl, rfl,
                  Or.inl ⟨tk, oty, ostr, oexp, hOC, rfl, h.symm⟩⟩
            · by_cases hDiv : a = .DIVIDEND ∨ a = .INTEREST
              · simp [h0, hA, h1, hD, hQ, hOC, hDiv] at h
                exact ⟨a, dt, q, p, f, am, rfl, rfl, rfl,
                  Or.inr (Or.inl ⟨hOC, hDiv, h.symm⟩)⟩
              · simp [h0, hA, h1, hD, hQ, hOC, hDiv] at h
                exact ⟨a, dt, q, p, f, am, rfl, rfl, rfl,
                  Or.inr (Or.inr ⟨hOC, hDiv, h.symm⟩)⟩

/-- The `"Dividend"`-stripping accommodation of parser lines 134-135 is
dead: the chosen ticker is empty only when symbol and description are
both empty, and then the `"dividend" in description.lower()` test fails,
so the branch never rewrites the ticker. -/
theorem dividendTicker_no_strip (s d : String) :
    dividendTicker s d = if s ≠ "" then s else d := by
  by_cases hs : s = ""
  · subst hs
    by_cases hd : d = ""
    · subst hd; decide
    · simp [dividendTicker, hd]
  · simp [dividendTicker, hs]

/-- C6: every record the parser emits satisfies the invariants: the asset
class is OPTION exactly when all three derivative fields are present;
quantity, price and fees are non-negative magnitudes; and the total
amount is exactly the parsed source amount, sign preserved. -/
theorem C6_invariants (row : Row) (t : ParsedTx)
    (h : processRow row = .record t) :
    (t.asset_type = .OPTION ↔
      (t.option_type ≠ none ∧ t.option_strike ≠ none ∧ t.option_expiry ≠ none))
    ∧ 0 ≤ t.quantity ∧ 0 ≤ t.price ∧ 0 ≤ t.fees
    ∧ parse_schwab_decimal row.amount = .ok t.total_amount := by
  obtain ⟨a, dt, q, p, f, am, hA, hD, hQ, hcase⟩ := processRow_record_cases row t h
  have ham := rowDecimals_amount row q p f am hQ
  rcases hcase with ⟨tk, oty, ostr, oexp, hOC, hR, ht⟩ | ⟨hOC, hDiv, ht⟩ | ⟨hOC, hDiv, ht⟩ <;>
    subst ht <;>
    exact ⟨by simp [mkParsedTx], magNonneg q, magNonneg p, abs_nonneg f, ham⟩

/-- Witness row for C6: the stock-buy row of the repository's test file. -/
def c6Row : Row :=
  { date := "05/19/2025", action := "Buy", symbol := "NVDA",
    description := "NVIDIA CORP", quantity := "100", price := "$135.50",
    fees := "", amount := "($13,550.00)" }

/-- The record the parser emits for `c6Row`. -/
def c6Rec : ParsedTx :=
  { transaction_date := ⟨2025, 5, 19⟩, action := .BUY, asset_type := .STOCK,
    ticker := "NVDA", quantity := 100, price := mkRat 13550 100, fees := 0,
    total_amount := mkRat (-1355000) 100, option_type := none,
    option_strike := none, option_expiry := none,
    raw_description := "NVIDIA CORP", raw_symbol := "NVDA" }

/-- Witness for C6 at the concrete stock-buy row. -/
theorem C6_witness :
    (c6Rec.asset_type = .OPTION ↔
      (c6Rec.option_type ≠ none ∧ c6Rec.option_strike ≠ none
        ∧ c6Rec.option_expiry ≠ none))
    ∧ 0 ≤ c6Rec.quantity ∧ 0 ≤ c6Rec.price ∧ 0 ≤ c6Rec.fees
    ∧ parse_schwab_decimal c6Row.amount = .ok c6Rec.total_amount :=
  C6_invariants c6Row c6Rec rfl

/-- C4 counterexample: a dividend row whose symbol is empty and whose
description is `"APPLE Dividend"` keeps the full description as ticker;
`"Dividend"` is NOT stripped out. -/
theorem C4_counterexample :
    (parseTransactions [{ date := "05/15/2025", action := "Qualified Dividend",
                          symbol := "", description := "APPLE Dividend",
                          amount := "$1.13" }]).map ParsedTx.ticker
      = ["APPLE Dividend"]
    ∧ ("APPLE Dividend" : String) ≠ "APPLE" :=
  ⟨rfl, by decide⟩

/-- C4 amended: dividend/interest records have asset class
CASH_EQUIVALENT and their ticker is the symbol field when present,
otherwise the description field verbatim; the `"Dividend"`-stripping
accommodation is unreachable and never applies. -/
theorem C4_dividend_ticker :
    (∀ s d : String, dividendTicker s d = if s ≠ "" then s else d)
    ∧ (∀ (row : Row) (t : ParsedTx) (a : ActionTypeEnum),
        processRow row = .record t →
        ACTION_MAP (pyStrip row.action) = some a →
        (a = .DIVIDEND ∨ a = .INTEREST) →
        t.asset_type = .CASH
        ∧ t.ticker = pyStrip (if pyStrip row.symbol ≠ "" then pyStrip row.symbol
                              else pyStrip row.description)) := by
  refine ⟨dividendTicker_no_strip, ?_⟩
  intro row t a h hA hDiv
  obtain ⟨b, dt, q, p, f, am, hA2, hD, hQ, hcase⟩ := processRow_record_cases row t h
  rw [hA] at hA2
  have hba : b = a := by cases hA2; rfl
  subst hba
  rcases hcase with ⟨tk, oty, ostr, oexp, hOC, hR, ht⟩ | ⟨hOC, hDiv2, ht⟩ | ⟨hOC, hDiv2, ht⟩
  · rcases hDiv with h1 | h1 <;> subst h1 <;> exact absurd hOC (by decide)
  · subst ht
    refine ⟨rfl, ?_⟩
    show pyStrip (dividendTicker (pyStrip row.symbol) (pyStrip row.description)) = _
    rw [dividendTicker_no_strip]
  · exact absurd hDiv hDiv2

/-- Witness for C4: the repository test's dividend row (symbol `AAPL`). -/
theorem C4_witness :
    (dividendTicker "AAPL" "APPLE INC" = if ("AAPL" : String) ≠ "" then "AAPL" else "APPLE INC")
    ∧ ((parseTransactions [{ date := "05/15/2025", action := "Qualified Dividend",
                             symbol := "AAPL", description := "APPLE INC",
                             amount := "$1.13" }]).map ParsedTx.ticker = ["AAPL"]) :=
  ⟨C4_dividend_ticker.1 "AAPL" "APPLE INC", rfl⟩


/-- Every key of `ACTION_MAP`, lower-cased. -/
def actionMapKeysLower : List String :=
  ["buy", "sell", "sell to open", "buy to open", "sell to close",
   "buy to close", "qualified dividend", "cash dividend", "interest income"]

theorem ACTION_MAP_mem_keys (s : String) (a : ActionTypeEnum)
    (h : ACTION_MAP s = some a) : pyLower s ∈ actionMapKeysLower := by
  unfold ACTION_MAP at h
  split_ifs at h with h1 h2 h3 h4 h5 h6 h7 h8 h9
  · subst h1; decide
  · subst h2; decide
  · subst h3; decide
  · subst h4; decide
  · subst h5; decide
  · subst h6; decide
  · subst h7; decide
  · subst h8; decide
  · subst h9; decide

/-- C8: the skip set is consulted with the lower-cased label while the
canonical map is consulted with the exact label. A label whose
lower-casing is in the skip set yields no record and no warning (its
exact form can never hit the case-sensitive map, whose lower-cased keys
are disjoint from the skip set); a non-empty label matching neither the
exact-match map nor (lower-cased) the skip set yields no record and
exactly one warning. -/
theorem C8_action_matching :
    (∀ row : Row, pyLower (pyStrip row.action) ∈ skipLabels →
      outRecords (processRow row) = 0 ∧ outWarnings (processRow row) = 0)
    ∧ (∀ row : Row, pyStrip row.action ≠ "" →
        ACTION_MAP (pyStrip row.action) = none →
        ¬ pyLower (pyStrip row.action) ∈ skipLabels →
        outRecords (processRow row) = 0 ∧ outWarnings (processRow row) = 1) := by
  constructor
  · intro row hskip
    have hne : pyStrip row.action ≠ "" := by
      intro he
      rw [he] at hskip
      exact absurd hskip (by decide)
    have hmap : ACTION_MAP (pyStrip row.action) = none := by
      cases hM : ACTION_MAP (pyStrip row.action) with
      | none => rfl
      | some a =>
        have hk := ACTION_MAP_mem_keys _ a hM
        have hdisj : ∀ x : String, x ∈ actionMapKeysLower → ¬ x ∈ skipLabels := by
          decide
        exact absurd hskip (hdisj _ hk)
    have hp : processRow row = .skip := by
      unfold processRow
      simp [hne, hmap, hskip]
    rw [hp]
    exact ⟨rfl, rfl⟩
  · intro row hne hmap hnskip
    have hp : processRow row = .warnUnmapped := by
      unfold processRow
      simp [hne, hmap, hnskip]
    rw [hp]
    exact ⟨rfl, rfl⟩

/-- Witness for C8: `"JOURNAL"` (a skip label in the wrong casing) is
silently skipped; `"BUY"` (a trading label in the wrong casing) is warned
about exactly once. -/
theorem C8_witness :
    (outRecords (processRow { action := "JOURNAL" }) = 0
      ∧ outWarnings (processRow { action := "JOURNAL" }) = 0)
    ∧ (outRecords (processRow { action := "BUY" }) = 0
      ∧ outWarnings (processRow { action := "BUY" }) = 1) :=
  ⟨C8_action_matching.1 { action := "JOURNAL" } (by decide),
   C8_action_matching.2 { action := "BUY" } (by decide) (by decide) (by decide)⟩

end DeltaTrack
